import Mathlib

/-!
Verification of the packet loss classification library.

The library provides five online packet-loss classifiers (MBiaz, Spike,
Trend, ZigZag and the hybrid ZBS).  Each classifier holds a small mutable
state of floating-point statistics and, on every `classify` call, updates
that state and returns a two-valued verdict (`Congestion` or `Wireless`).

The embedding below models the `f64` fields with exact rationals (`ℚ`);
Rust `assert!` preconditions become `Option` guards (`none` models a
panic).  Each `classify` takes the pre-state and returns the verdict
together with the post-state.
-/

namespace PLC

/-- The classified reason of packet loss (`PacketLoss` in the source). -/
inductive PacketLoss where
  | Congestion
  | Wireless
deriving DecidableEq

/-- Model of `std::f64::MAX`, used as the "infinity" sentinel that
initializes the running minima. -/
def f64Max : ℚ := 2 ^ 1024 - 2 ^ 971

/-- The source's running-minimum update `if b < a { a = b }` computes the
minimum of the two values. -/
theorem update_min_eq (a b : ℚ) : (if b < a then b else a) = min a b := by
  rw [min_def]
  split_ifs with h1 h2 <;> first | rfl | linarith

/-- The source's running-maximum update `if b > a { a = b }` computes the
maximum of the two values. -/
theorem update_max_eq (a b : ℚ) : (if a < b then b else a) = max a b := by
  rw [max_def]
  split_ifs with h1 h2 <;> first | rfl | linarith

/-! ## MBiaz -/

/-- State of the MBiaz classifier (`struct MBiaz` in `mbiaz.rs`). -/
structure MBiaz where
  lower_window_limit : ℚ
  upper_window_limit : ℚ
  interarrival_time_min : ℚ
deriving DecidableEq

/-- `MBiaz::new`: panics (`none`) unless `lower_window_limit <= upper_window_limit`. -/
def MBiaz.new (lower_window_limit upper_window_limit : ℚ) : Option MBiaz :=
  if lower_window_limit ≤ upper_window_limit then
    some ⟨lower_window_limit, upper_window_limit, f64Max⟩
  else none

/-- `MBiaz::classify` from `mbiaz.rs`: asserts `num_lost_packets > 0`,
updates the running minimum interarrival time, then checks whether the
interarrival time falls in the window `[a, b)`. -/
def MBiaz.classify (s : MBiaz) (interarrival_time : ℚ) (num_lost_packets : ℕ) :
    Option (PacketLoss × MBiaz) :=
  if 0 < num_lost_packets then
    let interarrival_time_min :=
      if interarrival_time < s.interarrival_time_min then interarrival_time
      else s.interarrival_time_min
    let a := ((num_lost_packets : ℚ) + s.lower_window_limit) * interarrival_time_min
    let b := ((num_lost_packets : ℚ) + s.upper_window_limit) * interarrival_time_min
    let verdict := if a ≤ interarrival_time ∧ interarrival_time < b then
        PacketLoss.Wireless
      else
        PacketLoss.Congestion
    some (verdict, ⟨s.lower_window_limit, s.upper_window_limit, interarrival_time_min⟩)
  else none

/-- Spec-side restatement of the MBiaz `classify` contract, written from the
spec's words: update `interarrival_time_min = min(interarrival_time_min,
interarrival_time)`, compute `a = (n + lower_window_limit) *
interarrival_time_min` and `b = (n + upper_window_limit) *
interarrival_time_min`, and return `Wireless` iff `a ≤ interarrival_time < b`,
otherwise `Congestion`. -/
def MBiaz.specClassify (s : MBiaz) (interarrival_time : ℚ) (n : ℕ) :
    PacketLoss × MBiaz :=
  let m := min s.interarrival_time_min interarrival_time
  let a := ((n : ℚ) + s.lower_window_limit) * m
  let b := ((n : ℚ) + s.upper_window_limit) * m
  (if a ≤ interarrival_time ∧ interarrival_time < b then PacketLoss.Wireless
   else PacketLoss.Congestion,
   ⟨s.lower_window_limit, s.upper_window_limit, m⟩)

/-! ## Spike -/

/-- The internal mode of the Spike classifier (`enum State` in `spike.rs`). -/
inductive SpikeState where
  | Spike
  | Normal
deriving DecidableEq

/-- State of the Spike classifier (`struct Spike` in `spike.rs`). -/
structure Spike where
  rott_min : ℚ
  rott_max : ℚ
  alpha : ℚ
  beta : ℚ
  state : SpikeState
deriving DecidableEq

/-- `Spike::new`: panics (`none`) unless `alpha >= beta`. -/
def Spike.new (alpha beta : ℚ) : Option Spike :=
  if beta ≤ alpha then some ⟨f64Max, 0, alpha, beta, SpikeState.Normal⟩ else none

/-- `Spike::classify` from `spike.rs`: updates the running min/max of the
observed ROTT, computes the spike start/end thresholds, and steps the
two-state machine.  The source has no assert, so the call is total. -/
def Spike.classify (s : Spike) (rott : ℚ) : PacketLoss × Spike :=
  let rott_min := if rott < s.rott_min then rott else s.rott_min
  let rott_max := if s.rott_max < rott then rott else s.rott_max
  let b_spike_start := rott_min + s.alpha * (rott_max - rott_min)
  let b_spike_end := rott_min + s.beta * (rott_max - rott_min)
  match s.state with
  | SpikeState.Spike =>
      if rott < b_spike_end then
        (PacketLoss.Wireless, ⟨rott_min, rott_max, s.alpha, s.beta, SpikeState.Normal⟩)
      else
        (PacketLoss.Congestion, ⟨rott_min, rott_max, s.alpha, s.beta, SpikeState.Spike⟩)
  | SpikeState.Normal =>
      if b_spike_start < rott then
        (PacketLoss.Congestion, ⟨rott_min, rott_max, s.alpha, s.beta, SpikeState.Spike⟩)
      else
        (PacketLoss.Wireless, ⟨rott_min, rott_max, s.alpha, s.beta, SpikeState.Normal⟩)

/-- Spec-side restatement of the Spike `classify` contract, written from the
spec's words: first update `rott_min = min(rott_min, rott)` and
`rott_max = max(rott_max, rott)`, compute
`spike_start = rott_min + alpha*(rott_max - rott_min)` and
`spike_end = rott_min + beta*(rott_max - rott_min)`; in state Normal, if
`rott > spike_start` transition to Spike and return Congestion, else stay
Normal and return Wireless; in state Spike, if `rott < spike_end` transition
to Normal and return Wireless, else stay Spike and return Congestion. -/
def Spike.specClassify (s : Spike) (rott : ℚ) : PacketLoss × Spike :=
  let rmin := min s.rott_min rott
  let rmax := max s.rott_max rott
  let spike_start := rmin + s.alpha * (rmax - rmin)
  let spike_end := rmin + s.beta * (rmax - rmin)
  match s.state with
  | SpikeState.Normal =>
      if spike_start < rott then
        (PacketLoss.Congestion, ⟨rmin, rmax, s.alpha, s.beta, SpikeState.Spike⟩)
      else
        (PacketLoss.Wireless, ⟨rmin, rmax, s.alpha, s.beta, SpikeState.Normal⟩)
  | SpikeState.Spike =>
      if rott < spike_end then
        (PacketLoss.Wireless, ⟨rmin, rmax, s.alpha, s.beta, SpikeState.Normal⟩)
      else
        (PacketLoss.Congestion, ⟨rmin, rmax, s.alpha, s.beta, SpikeState.Spike⟩)

/-! ## ZigZag -/

/-- State of the ZigZag classifier (`struct ZigZag` in `zigzag.rs`). -/
structure ZigZag where
  rott_mean : ℚ
  rott_dev : ℚ
  alpha : ℚ
deriving DecidableEq

/-- `ZigZag::new`: panics (`none`) unless `alpha` lies in `[0, 1]`. -/
def ZigZag.new (alpha : ℚ) : Option ZigZag :=
  if 0 ≤ alpha ∧ alpha ≤ 1 then some ⟨0, 0, alpha⟩ else none

/-- `ZigZag::classify` from `zigzag.rs`: asserts `rott >= 0` and
`num_lost_packets > 0`, updates the smoothed mean and then the deviation
(using the just-updated mean), and compares `rott` against a threshold
selected by the loss-burst length. -/
def ZigZag.classify (z : ZigZag) (rott : ℚ) (num_lost_packets : ℕ) :
    Option (PacketLoss × ZigZag) :=
  if 0 ≤ rott ∧ 0 < num_lost_packets then
    let rott_mean := (1 - z.alpha) * z.rott_mean + z.alpha * rott
    let rott_dev := (1 - 2 * z.alpha) + 2 * z.alpha * |rott - rott_mean|
    let verdict :=
      match num_lost_packets with
      | 1 => if rott < rott_mean - rott_dev then PacketLoss.Wireless
             else PacketLoss.Congestion
      | 2 => if rott < rott_mean - rott_dev / 2 then PacketLoss.Wireless
             else PacketLoss.Congestion
      | 3 => if rott < rott_mean then PacketLoss.Wireless
             else PacketLoss.Congestion
      | _ => if rott < rott_mean + rott_dev / 2 then PacketLoss.Wireless
             else PacketLoss.Congestion
    some (verdict, ⟨rott_mean, rott_dev, z.alpha⟩)
  else none

/-- Spec-side restatement of the ZigZag `classify` contract, written from
the spec's words: set `rott_mean = (1-alpha)*rott_mean + alpha*rott`, then
`rott_dev = (1-2*alpha) + 2*alpha*|rott - rott_mean|` with the just-updated
mean, and return Wireless iff `(n = 1 and rott < rott_mean - rott_dev)`, or
`(n = 2 and rott < rott_mean - rott_dev/2)`, or `(n = 3 and
rott < rott_mean)`, or `(n >= 4 and rott < rott_mean + rott_dev/2)`;
otherwise Congestion. -/
def ZigZag.specClassify (z : ZigZag) (rott : ℚ) (n : ℕ) : PacketLoss × ZigZag :=
  let m := (1 - z.alpha) * z.rott_mean + z.alpha * rott
  let d := (1 - 2 * z.alpha) + 2 * z.alpha * |rott - m|
  (if (n = 1 ∧ rott < m - d) ∨ (n = 2 ∧ rott < m - d / 2) ∨
      (n = 3 ∧ rott < m) ∨ (4 ≤ n ∧ rott < m + d / 2) then
     PacketLoss.Wireless
   else PacketLoss.Congestion,
   ⟨m, d, z.alpha⟩)

/-! ## Trend -/

/-- State of the Trend classifier (`struct Trend` in `trend.rs`). -/
structure Trend where
  previous_rott : ℚ
  gamma : ℚ
  s_threshold : ℚ
  s_f : ℚ
deriving DecidableEq

/-- `Trend::new`: panics (`none`) unless both `gamma` and `s_threshold`
lie in `[0, 1]`. -/
def Trend.new (gamma s_threshold : ℚ) : Option Trend :=
  if (0 ≤ gamma ∧ gamma ≤ 1) ∧ (0 ≤ s_threshold ∧ s_threshold ≤ 1) then
    some ⟨0, gamma, s_threshold, 0⟩
  else none

/-- `Trend::classify` from `trend.rs`: asserts `rott >= 0`, decays `s_f`
by `1 - gamma`, adds `gamma` when the ROTT increased, records the ROTT and
compares `s_f` against the threshold. -/
def Trend.classify (t : Trend) (rott : ℚ) : Option (PacketLoss × Trend) :=
  if 0 ≤ rott then
    let s_f := (1 - t.gamma) * t.s_f +
      (if t.previous_rott < rott then t.gamma else 0)
    let verdict := if t.s_threshold < s_f then PacketLoss.Congestion
      else PacketLoss.Wireless
    some (verdict, ⟨rott, t.gamma, t.s_threshold, s_f⟩)
  else none

/-- Spec-side restatement of the Trend `classify` contract, written from
the spec's words: set `s_f = (1-gamma)*s_f + gamma*(1 if rott >
previous_rott else 0)`, then `previous_rott = rott`, and return Congestion
iff the updated `s_f > s_threshold`, else Wireless. -/
def Trend.specClassify (t : Trend) (rott : ℚ) : PacketLoss × Trend :=
  let s_f := (1 - t.gamma) * t.s_f +
    t.gamma * (if t.previous_rott < rott then 1 else 0)
  (if t.s_threshold < s_f then PacketLoss.Congestion else PacketLoss.Wireless,
   ⟨rott, t.gamma, t.s_threshold, s_f⟩)

/-! ## ZBS -/

/-- State of the ZBS hybrid classifier (`struct ZBS` in `zbs.rs`): it owns
one MBiaz, one Spike and one ZigZag instance plus its own topology
statistics. -/
structure ZBS where
  mbiaz : MBiaz
  spike : Spike
  zigzag : ZigZag
  t_avg : ℚ
  t_min : ℚ
  rott_min : ℚ
deriving DecidableEq

/-- `ZBS::new` from `zbs.rs`: composes pre-built sub-classifiers. -/
def ZBS.new (mbiaz : MBiaz) (spike : Spike) (zigzag : ZigZag) : ZBS :=
  ⟨mbiaz, spike, zigzag, 0, f64Max, f64Max⟩

/-- `ZBS::classify` from `zbs.rs`: asserts `rott >= 0`,
`interarrival_time >= 0` and `num_lost_packets > 0`; updates `t_min`,
`rott_min` and `t_avg`; and dispatches on the closeness of `rott` to its
minimum and on the topology metric `t_narr = t_avg / t_min` to exactly one
owned sub-classifier, whose verdict is returned and whose post-state is
stored back. -/
def ZBS.classify (z : ZBS) (rott interarrival_time : ℚ) (num_lost_packets : ℕ) :
    Option (PacketLoss × ZBS) :=
  if 0 ≤ rott ∧ 0 ≤ interarrival_time ∧ 0 < num_lost_packets then
    let t_min := if interarrival_time < z.t_min then interarrival_time else z.t_min
    let rott_min := if rott < z.rott_min then rott else z.rott_min
    let t_avg := 0.875 * z.t_avg +
      0.125 * interarrival_time * interarrival_time / (num_lost_packets : ℚ)
    let t_narr := t_avg / t_min
    if rott < rott_min + 0.05 * t_min then
      let p := z.spike.classify rott
      some (p.1, ⟨z.mbiaz, p.2, z.zigzag, t_avg, t_min, rott_min⟩)
    else if t_narr < 0.875 then
      (z.zigzag.classify rott num_lost_packets).map
        fun p => (p.1, ⟨z.mbiaz, z.spike, p.2, t_avg, t_min, rott_min⟩)
    else if t_narr < 1.5 then
      (z.mbiaz.classify interarrival_time num_lost_packets).map
        fun p => (p.1, ⟨p.2, z.spike, z.zigzag, t_avg, t_min, rott_min⟩)
    else if t_narr < 2 then
      (z.zigzag.classify rott num_lost_packets).map
        fun p => (p.1, ⟨z.mbiaz, z.spike, p.2, t_avg, t_min, rott_min⟩)
    else
      let p := z.spike.classify rott
      some (p.1, ⟨z.mbiaz, p.2, z.zigzag, t_avg, t_min, rott_min⟩)
  else none

/-- Spec-side restatement of the ZBS `classify` contract, written from the
spec's words: first `t_min = min(t_min, interarrival_time)` and
`rott_min = min(rott_min, rott)`, then
`t_avg = 0.875*t_avg + 0.125*interarrival_time^2/num_lost_packets`, and
with `t_narr = t_avg/t_min` dispatch in this exact order: if
`rott < rott_min + 0.05*t_min` return `spike.classify(rott)`; otherwise if
`t_narr < 0.875` return `zigzag.classify(rott, num_lost_packets)`;
otherwise if `t_narr < 1.5` return
`mbiaz.classify(interarrival_time, num_lost_packets)`; otherwise if
`t_narr < 2.0` return `zigzag.classify(rott, num_lost_packets)`; otherwise
return `spike.classify(rott)` — the delegate's verdict returned
unchanged. -/
def ZBS.specClassify (z : ZBS) (rott interarrival_time : ℚ)
    (num_lost_packets : ℕ) : Option (PacketLoss × ZBS) :=
  let t_min := min z.t_min interarrival_time
  let rott_min := min z.rott_min rott
  let t_avg := 0.875 * z.t_avg +
    0.125 * interarrival_time ^ 2 / (num_lost_packets : ℚ)
  let t_narr := t_avg / t_min
  if rott < rott_min + 0.05 * t_min then
    let p := z.spike.classify rott
    some (p.1, ⟨z.mbiaz, p.2, z.zigzag, t_avg, t_min, rott_min⟩)
  else if t_narr < 0.875 then
    (z.zigzag.classify rott num_lost_packets).map
      fun p => (p.1, ⟨z.mbiaz, z.spike, p.2, t_avg, t_min, rott_min⟩)
  else if t_narr < 1.5 then
    (z.mbiaz.classify interarrival_time num_lost_packets).map
      fun p => (p.1, ⟨p.2, z.spike, z.zigzag, t_avg, t_min, rott_min⟩)
  else if t_narr < 2 then
    (z.zigzag.classify rott num_lost_packets).map
      fun p => (p.1, ⟨z.mbiaz, z.spike, p.2, t_avg, t_min, rott_min⟩)
  else
    let p := z.spike.classify rott
    some (p.1, ⟨z.mbiaz, p.2, z.zigzag, t_avg, t_min, rott_min⟩)

/-! ## Claims C3, C4 -/

/-- Claim C3: for every Spike state and every rott (no precondition on its
sign), `classify(rott)` first updates `rott_min = min(rott_min, rott)` and
`rott_max = max(rott_max, rott)`, computes
`spike_start = rott_min + alpha*(rott_max - rott_min)` and
`spike_end = rott_min + beta*(rott_max - rott_min)`, and then: in state
Normal, if `rott > spike_start` it transitions to Spike and returns
Congestion, else it stays Normal and returns Wireless; in state Spike, if
`rott < spike_end` it transitions to Normal and returns Wireless, else it
stays Spike and returns Congestion. -/
theorem spike_classify_follows_spec (s : Spike) (rott : ℚ) :
    s.classify rott = s.specClassify rott := by
  unfold Spike.classify Spike.specClassify
  rw [update_min_eq, update_max_eq]
  cases s.state <;> rfl

/-- Claim C4: for every MBiaz state and every call
`classify(interarrival_time, num_lost_packets)` with `num_lost_packets > 0`,
the call succeeds, first sets `interarrival_time_min` to
`min(interarrival_time_min, interarrival_time)`, then computes
`a = (n + lower_window_limit) * interarrival_time_min` and
`b = (n + upper_window_limit) * interarrival_time_min`, and returns Wireless
iff `a <= interarrival_time < b`, otherwise Congestion. -/
theorem mbiaz_classify_follows_spec (s : MBiaz) (interarrival_time : ℚ)
    (n : ℕ) (hn : 0 < n) :
    s.classify interarrival_time n = some (s.specClassify interarrival_time n) := by
  unfold MBiaz.classify MBiaz.specClassify
  rw [if_pos hn, update_min_eq]

/-- Witness for C4 at a concrete state and input. -/
theorem mbiaz_classify_follows_spec_witness :
    MBiaz.classify ⟨1, 5/4, 10⟩ 3 1 = some (MBiaz.specClassify ⟨1, 5/4, 10⟩ 3 1) :=
  mbiaz_classify_follows_spec ⟨1, 5/4, 10⟩ 3 1 (by decide)

/-- Helper: the ZigZag `classify` call agrees with its spec-side
restatement whenever its preconditions hold.  Shared by several claim
proofs below. -/
theorem zigzag_classify_eq_spec (z : ZigZag) (rott : ℚ) (n : ℕ)
    (hr : 0 ≤ rott) (hn : 0 < n) :
    z.classify rott n = some (z.specClassify rott n) := by
  unfold ZigZag.classify ZigZag.specClassify
  rw [if_pos ⟨hr, hn⟩]
  match n, hn with
  | 1, _ => simp
  | 2, _ => simp
  | 3, _ => simp
  | (k + 4), _ =>
      have h4 : 4 ≤ k + 4 := by omega
      simp [h4]

/-- Claim C2: for every ZigZag state and every call
`classify(rott, num_lost_packets)` with `rott >= 0` and
`num_lost_packets > 0`, the call succeeds, first sets
`rott_mean = (1-alpha)*rott_mean + alpha*rott`, then sets
`rott_dev = (1-2*alpha) + 2*alpha*|rott - rott_mean|` using the
just-updated mean, and returns Wireless iff `(n = 1 and
rott < rott_mean - rott_dev)`, or `(n = 2 and
rott < rott_mean - rott_dev/2)`, or `(n = 3 and rott < rott_mean)`, or
`(n >= 4 and rott < rott_mean + rott_dev/2)`; otherwise Congestion. -/
theorem zigzag_classify_follows_spec (z : ZigZag) (rott : ℚ) (n : ℕ)
    (hr : 0 ≤ rott) (hn : 0 < n) :
    z.classify rott n = some (z.specClassify rott n) :=
  zigzag_classify_eq_spec z rott n hr hn

/-- Witness for C2 at a concrete state and input. -/
theorem zigzag_classify_follows_spec_witness :
    ZigZag.classify ⟨2, 1, 1/32⟩ 3 2 = some (ZigZag.specClassify ⟨2, 1, 1/32⟩ 3 2) :=
  zigzag_classify_follows_spec ⟨2, 1, 1/32⟩ 3 2 (by norm_num) (by decide)

/-- Claim C5: for every Trend state and every call `classify(rott)` with
`rott >= 0`, the call succeeds, sets
`s_f = (1-gamma)*s_f + gamma*(1 if rott > previous_rott else 0)`, then
sets `previous_rott = rott`, and returns Congestion iff the updated
`s_f > s_threshold`, else Wireless. -/
theorem trend_classify_follows_spec (t : Trend) (rott : ℚ) (hr : 0 ≤ rott) :
    t.classify rott = some (t.specClassify rott) := by
  unfold Trend.classify Trend.specClassify
  rw [if_pos hr]
  by_cases h : t.previous_rott < rott <;> simp [h]

/-- Witness for C5 at a concrete state and input. -/
theorem trend_classify_follows_spec_witness :
    Trend.classify ⟨1, 1/30, 2/5, 1/2⟩ 2 = some (Trend.specClassify ⟨1, 1/30, 2/5, 1/2⟩ 2) :=
  trend_classify_follows_spec ⟨1, 1/30, 2/5, 1/2⟩ 2 (by norm_num)

/-- Claim C1: for every ZBS state and every call
`classify(rott, interarrival_time, num_lost_packets)` with `rott >= 0`,
`interarrival_time >= 0` and `num_lost_packets > 0`, the call first sets
`t_min = min(t_min, interarrival_time)` and
`rott_min = min(rott_min, rott)`, then sets
`t_avg = 0.875*t_avg + 0.125*interarrival_time^2/num_lost_packets`, and
with `t_narr = t_avg/t_min` dispatches in this exact order: if
`rott < rott_min + 0.05*t_min` it returns `spike.classify(rott)`;
otherwise if `t_narr < 0.875` it returns
`zigzag.classify(rott, num_lost_packets)`; otherwise if `t_narr < 1.5` it
returns `mbiaz.classify(interarrival_time, num_lost_packets)`; otherwise
if `t_narr < 2.0` it returns `zigzag.classify(rott, num_lost_packets)`;
otherwise it returns `spike.classify(rott)`, the delegate's verdict being
returned unchanged. -/
theorem zbs_classify_follows_spec (z : ZBS) (rott interarrival_time : ℚ)
    (n : ℕ) (hr : 0 ≤ rott) (hi : 0 ≤ interarrival_time) (hn : 0 < n) :
    z.classify rott interarrival_time n = z.specClassify rott interarrival_time n := by
  unfold ZBS.classify ZBS.specClassify
  rw [if_pos ⟨hr, hi, hn⟩,
    show (0.125 : ℚ) * interarrival_time * interarrival_time / (n : ℚ) =
      0.125 * interarrival_time ^ 2 / (n : ℚ) from by ring,
    update_min_eq, update_min_eq]

/-- Witness for C1 at a concrete state and input. -/
theorem zbs_classify_follows_spec_witness :
    ZBS.classify ⟨⟨1, 5/4, 10⟩, ⟨1, 10, 1/2, 1/3, SpikeState.Normal⟩, ⟨0, 0, 1/32⟩, 0, 4, 3⟩ 5 2 1 =
      ZBS.specClassify ⟨⟨1, 5/4, 10⟩, ⟨1, 10, 1/2, 1/3, SpikeState.Normal⟩, ⟨0, 0, 1/32⟩, 0, 4, 3⟩ 5 2 1 :=
  zbs_classify_follows_spec ⟨⟨1, 5/4, 10⟩, ⟨1, 10, 1/2, 1/3, SpikeState.Normal⟩, ⟨0, 0, 1/32⟩, 0, 4, 3⟩
    5 2 1 (by norm_num) (by norm_num) (by decide)

/-! ## Claim C6 (delegation exclusivity) -/

/-- How many of the three owned sub-classifiers hold a different state in
`z'` than in `z`. -/
def ZBS.subStatesChanged (z z' : ZBS) : ℕ :=
  (if z'.mbiaz = z.mbiaz then 0 else 1) +
  (if z'.spike = z.spike then 0 else 1) +
  (if z'.zigzag = z.zigzag then 0 else 1)

/-- A ZBS state whose Spike sub-classifier already covers the incoming
observation: its running min/max and state are unchanged by the call. -/
def zbsFrameCex : ZBS :=
  ⟨⟨1, 5/4, 10⟩, ⟨0, 100, 1/2, 1/3, SpikeState.Normal⟩, ⟨0, 0, 1/32⟩, 0, 1, 0⟩

/-- Counterexample to claim C6 as stated: at the state `zbsFrameCex` and
the valid call `classify(0, 1, 1)`, the call dispatches to the Spike
sub-classifier but leaves its state (and the other two) completely
unchanged, so the number of sub-classifiers whose mutable state changes is
0, not exactly 1. -/
theorem zbs_exclusivity_counterexample :
    ZBS.classify zbsFrameCex 0 1 1 =
      some (PacketLoss.Wireless,
        ⟨⟨1, 5/4, 10⟩, ⟨0, 100, 1/2, 1/3, SpikeState.Normal⟩, ⟨0, 0, 1/32⟩, 1/8, 1, 0⟩) ∧
    ZBS.subStatesChanged zbsFrameCex
      ⟨⟨1, 5/4, 10⟩, ⟨0, 100, 1/2, 1/3, SpikeState.Normal⟩, ⟨0, 0, 1/32⟩, 1/8, 1, 0⟩ = 0 := by
  constructor
  · norm_num [ZBS.classify, Spike.classify, zbsFrameCex]
  · norm_num [ZBS.subStatesChanged, zbsFrameCex]

/-- Claim C6 as amended: for every ZBS state and every valid classify call
(`rott >= 0`, `interarrival_time >= 0`, `num_lost_packets > 0`), at most
one of the three owned sub-classifiers has its mutable state changed by
the call — the one the call dispatches to — and the mutable state of the
other two sub-classifiers is identical before and after the call. -/
theorem zbs_delegation_at_most_one (z : ZBS) (rott interarrival_time : ℚ)
    (n : ℕ) (hr : 0 ≤ rott) (hi : 0 ≤ interarrival_time) (hn : 0 < n)
    (v : PacketLoss) (z' : ZBS)
    (h : z.classify rott interarrival_time n = some (v, z')) :
    (z'.mbiaz = z.mbiaz ∧ z'.zigzag = z.zigzag) ∨
    (z'.mbiaz = z.mbiaz ∧ z'.spike = z.spike) ∨
    (z'.spike = z.spike ∧ z'.zigzag = z.zigzag) := by
  unfold ZBS.classify at h
  rw [if_pos ⟨hr, hi, hn⟩] at h
  simp only at h
  split_ifs at h
  all_goals
    first
      | replace h := Option.some.inj h
      | obtain ⟨p, hp, h⟩ := Option.map_eq_some'.mp h
  all_goals
    rw [Prod.ext_iff] at h
    obtain ⟨hv, hz⟩ := h
    subst hz
    simp

/-- Witness for the amended C6 at a concrete state and input. -/
theorem zbs_delegation_at_most_one_witness :
    ((⟨⟨1, 5/4, 10⟩, ⟨0, 100, 1/2, 1/3, SpikeState.Normal⟩, ⟨0, 0, 1/32⟩, 1/8, 1, 0⟩ : ZBS).mbiaz =
        zbsFrameCex.mbiaz ∧
      (⟨⟨1, 5/4, 10⟩, ⟨0, 100, 1/2, 1/3, SpikeState.Normal⟩, ⟨0, 0, 1/32⟩, 1/8, 1, 0⟩ : ZBS).zigzag =
        zbsFrameCex.zigzag) ∨
    ((⟨⟨1, 5/4, 10⟩, ⟨0, 100, 1/2, 1/3, SpikeState.Normal⟩, ⟨0, 0, 1/32⟩, 1/8, 1, 0⟩ : ZBS).mbiaz =
        zbsFrameCex.mbiaz ∧
      (⟨⟨1, 5/4, 10⟩, ⟨0, 100, 1/2, 1/3, SpikeState.Normal⟩, ⟨0, 0, 1/32⟩, 1/8, 1, 0⟩ : ZBS).spike =
        zbsFrameCex.spike) ∨
    ((⟨⟨1, 5/4, 10⟩, ⟨0, 100, 1/2, 1/3, SpikeState.Normal⟩, ⟨0, 0, 1/32⟩, 1/8, 1, 0⟩ : ZBS).spike =
        zbsFrameCex.spike ∧
      (⟨⟨1, 5/4, 10⟩, ⟨0, 100, 1/2, 1/3, SpikeState.Normal⟩, ⟨0, 0, 1/32⟩, 1/8, 1, 0⟩ : ZBS).zigzag =
        zbsFrameCex.zigzag) :=
  zbs_delegation_at_most_one zbsFrameCex 0 1 1 (by norm_num) (by norm_num) (by decide)
    PacketLoss.Wireless
    ⟨⟨1, 5/4, 10⟩, ⟨0, 100, 1/2, 1/3, SpikeState.Normal⟩, ⟨0, 0, 1/32⟩, 1/8, 1, 0⟩
    (by norm_num [ZBS.classify, Spike.classify, zbsFrameCex])

/-! ## Claim C7 (Spike hysteresis) -/

/-- Claim C7: for every Spike instance currently in state Spike and any
observation `rott` at or above the (freshly recomputed) `spike_end`
threshold, the call keeps the classifier in state Spike and returns
Congestion — equivalently, in state Spike the verdict can only become
Wireless when `rott` drops strictly below `spike_end`, no matter how
`rott` fluctuates between `spike_end` and `spike_start` across successive
calls. -/
theorem spike_hysteresis (s : Spike) (rott : ℚ)
    (hs : s.state = SpikeState.Spike)
    (hend : min s.rott_min rott +
      s.beta * (max s.rott_max rott - min s.rott_min rott) ≤ rott) :
    s.classify rott =
      (PacketLoss.Congestion,
       ⟨min s.rott_min rott, max s.rott_max rott, s.alpha, s.beta,
        SpikeState.Spike⟩) := by
  obtain ⟨rmin, rmax, a, b, st⟩ := s
  simp only at hs hend
  subst hs
  unfold Spike.classify
  rw [update_min_eq, update_max_eq]
  simp only
  rw [if_neg (not_lt.mpr hend)]

/-- Witness for C7 at a concrete state and input. -/
theorem spike_hysteresis_witness :
    Spike.classify ⟨0, 10, 1/2, 1/3, SpikeState.Spike⟩ 5 =
      (PacketLoss.Congestion,
       ⟨min 0 5, max 10 5, 1/2, 1/3, SpikeState.Spike⟩) :=
  spike_hysteresis ⟨0, 10, 1/2, 1/3, SpikeState.Spike⟩ 5 rfl
    (by norm_num [min_def, max_def])

/-! ## Claim C8 (ZigZag threshold monotonicity) -/

/-- Counterexample to claim C8 as stated: with the legal configuration
`alpha = 1` (accepted by `ZigZag::new`), the state with `rott_mean = 0`
and `rott_dev = 0` and the observation `rott = 0` yield an updated
deviation of `-1`, so the thresholds decrease with the burst length: the
call with 2 lost packets returns Wireless while the call with 3 lost
packets (same fixed mean and deviation) returns Congestion. -/
theorem zigzag_monotonicity_counterexample :
    (ZigZag.classify ⟨0, 0, 1⟩ 0 2).map Prod.fst = some PacketLoss.Wireless ∧
    (ZigZag.classify ⟨0, 0, 1⟩ 0 3).map Prod.fst = some PacketLoss.Congestion := by
  constructor <;> norm_num [ZigZag.classify]

/-- Helper: a two-verdict `if` equals `Wireless` exactly when its
condition holds. -/
theorem ite_eq_wireless_iff (c : Prop) [Decidable c] :
    ((if c then PacketLoss.Wireless else PacketLoss.Congestion) =
      PacketLoss.Wireless) ↔ c := by
  split_ifs with hc <;> simp [hc]

/-- Helper: characterization of the ZigZag Wireless verdict as a single
threshold comparison, with the threshold selected by the burst length. -/
theorem zigzag_wireless_iff (z : ZigZag) (rott : ℚ) (k : ℕ)
    (hr : 0 ≤ rott) (hk : 0 < k) :
    ((z.classify rott k).map Prod.fst = some PacketLoss.Wireless) ↔
      rott <
        (if k = 1 then
          ((1 - z.alpha) * z.rott_mean + z.alpha * rott) -
            ((1 - 2 * z.alpha) +
              2 * z.alpha * |rott - ((1 - z.alpha) * z.rott_mean + z.alpha * rott)|)
        else if k = 2 then
          ((1 - z.alpha) * z.rott_mean + z.alpha * rott) -
            ((1 - 2 * z.alpha) +
              2 * z.alpha * |rott - ((1 - z.alpha) * z.rott_mean + z.alpha * rott)|) / 2
        else if k = 3 then (1 - z.alpha) * z.rott_mean + z.alpha * rott
        else
          ((1 - z.alpha) * z.rott_mean + z.alpha * rott) +
            ((1 - 2 * z.alpha) +
              2 * z.alpha * |rott - ((1 - z.alpha) * z.rott_mean + z.alpha * rott)|) / 2) := by
  rw [zigzag_classify_eq_spec z rott k hr hk]
  unfold ZigZag.specClassify
  simp only [Option.map_some', Option.some.injEq]
  rw [ite_eq_wireless_iff]
  by_cases h1 : k = 1
  · subst h1
    norm_num
  · by_cases h2 : k = 2
    · subst h2
      norm_num
    · by_cases h3 : k = 3
      · subst h3
        norm_num
      · have h4 : 4 ≤ k := by omega
        simp [h1, h2, h3, h4]

/-- Claim C8 as amended: provided the updated `rott_dev` is nonnegative
(which the counterexample above shows is necessary, and which always
holds e.g. for `alpha ≤ 1/2`), the Wireless/Congestion boundary of
ZigZag is monotonically non-decreasing in `num_lost_packets`: for fixed
updated `rott_mean` and `rott_dev` (the update does not depend on the
burst length), if `classify` returns Wireless at burst length `n`, it
also returns Wireless at every larger burst length `n'`. -/
theorem zigzag_threshold_monotone (z : ZigZag) (rott : ℚ) (n n' : ℕ)
    (hr : 0 ≤ rott) (hn : 0 < n) (hnn' : n ≤ n')
    (hd : 0 ≤ (1 - 2 * z.alpha) +
      2 * z.alpha * |rott - ((1 - z.alpha) * z.rott_mean + z.alpha * rott)|)
    (hw : (z.classify rott n).map Prod.fst = some PacketLoss.Wireless) :
    (z.classify rott n').map Prod.fst = some PacketLoss.Wireless := by
  have hn' : 0 < n' := lt_of_lt_of_le hn hnn'
  rw [zigzag_wireless_iff z rott n hr hn] at hw
  rw [zigzag_wireless_iff z rott n' hr hn']
  split_ifs at hw ⊢ <;> first | linarith | (exfalso; omega)

/-- Witness for the amended C8 at a concrete state and input
(`alpha = 0`, so the updated deviation is `1 ≥ 0`; Wireless at burst
length 1 propagates to burst length 4). -/
theorem zigzag_threshold_monotone_witness :
    (ZigZag.classify ⟨10, 0, 0⟩ 2 4).map Prod.fst = some PacketLoss.Wireless :=
  zigzag_threshold_monotone ⟨10, 0, 0⟩ 2 1 4 (by norm_num) (by decide) (by decide)
    (by norm_num) (by norm_num [ZigZag.classify])

/-! ## Claim C9 (precondition enforcement) -/

/-- Claim C9: every documented precondition violation deterministically
fails (modelled by `none`) rather than silently proceeding: `MBiaz::new`
fails whenever `lower_window_limit > upper_window_limit`; `Spike::new`
fails whenever `alpha < beta`; `Trend::new` fails whenever `gamma` or
`s_threshold` lies outside `[0, 1]`; `ZigZag::new` fails whenever `alpha`
lies outside `[0, 1]`; each `classify` fails whenever
`num_lost_packets = 0` (MBiaz, ZigZag, ZBS) or a documented-nonnegative
timing argument is negative (`rott` for Trend, ZigZag, ZBS;
`interarrival_time` for ZBS). -/
theorem precondition_enforcement :
    (∀ lo hi : ℚ, hi < lo → MBiaz.new lo hi = none) ∧
    (∀ a b : ℚ, a < b → Spike.new a b = none) ∧
    (∀ g t : ℚ, (g < 0 ∨ 1 < g ∨ t < 0 ∨ 1 < t) → Trend.new g t = none) ∧
    (∀ a : ℚ, (a < 0 ∨ 1 < a) → ZigZag.new a = none) ∧
    (∀ s : MBiaz, ∀ iat : ℚ, s.classify iat 0 = none) ∧
    (∀ z : ZigZag, ∀ r : ℚ, z.classify r 0 = none) ∧
    (∀ z : ZBS, ∀ r i : ℚ, z.classify r i 0 = none) ∧
    (∀ t : Trend, ∀ r : ℚ, r < 0 → t.classify r = none) ∧
    (∀ z : ZigZag, ∀ r : ℚ, ∀ m : ℕ, r < 0 → z.classify r m = none) ∧
    (∀ z : ZBS, ∀ r i : ℚ, ∀ m : ℕ, r < 0 → z.classify r i m = none) ∧
    (∀ z : ZBS, ∀ r i : ℚ, ∀ m : ℕ, i < 0 → z.classify r i m = none) := by
  refine ⟨?_, ?_, ?_, ?_, ?_, ?_, ?_, ?_, ?_, ?_, ?_⟩
  · intro lo hi h
    unfold MBiaz.new
    rw [if_neg (by linarith)]
  · intro a b h
    unfold Spike.new
    rw [if_neg (by linarith)]
  · intro g t h
    unfold Trend.new
    rw [if_neg]
    rintro ⟨⟨h1, h2⟩, h3, h4⟩
    rcases h with h | h | h | h <;> linarith
  · intro a h
    unfold ZigZag.new
    rw [if_neg]
    rintro ⟨h1, h2⟩
    rcases h with h | h <;> linarith
  · intro s iat
    unfold MBiaz.classify
    rw [if_neg (by omega)]
  · intro z r
    unfold ZigZag.classify
    rw [if_neg]
    rintro ⟨-, h2⟩
    omega
  · intro z r i
    unfold ZBS.classify
    rw [if_neg]
    rintro ⟨-, -, h3⟩
    omega
  · intro t r h
    unfold Trend.classify
    rw [if_neg (by linarith)]
  · intro z r m h
    unfold ZigZag.classify
    rw [if_neg]
    rintro ⟨h1, -⟩
    linarith
  · intro z r i m h
    unfold ZBS.classify
    rw [if_neg]
    rintro ⟨h1, -, -⟩
    linarith
  · intro z r i m h
    unfold ZBS.classify
    rw [if_neg]
    rintro ⟨-, h2, -⟩
    linarith

/-- Witness for C9: one concrete violating input per enforced
precondition. -/
theorem precondition_enforcement_witness :
    MBiaz.new 2 1 = none ∧
    Spike.new (1/3) (1/2) = none ∧
    Trend.new 2 (1/2) = none ∧
    ZigZag.new 2 = none ∧
    MBiaz.classify ⟨1, 5/4, 10⟩ 3 0 = none ∧
    ZigZag.classify ⟨0, 0, 1/32⟩ 3 0 = none ∧
    ZBS.classify (ZBS.new ⟨1, 5/4, 10⟩ ⟨0, 100, 1/2, 1/3, SpikeState.Normal⟩ ⟨0, 0, 1/32⟩) 3 3 0 = none ∧
    Trend.classify ⟨0, 1/30, 2/5, 0⟩ (-1) = none ∧
    ZigZag.classify ⟨0, 0, 1/32⟩ (-1) 1 = none ∧
    ZBS.classify (ZBS.new ⟨1, 5/4, 10⟩ ⟨0, 100, 1/2, 1/3, SpikeState.Normal⟩ ⟨0, 0, 1/32⟩) (-1) 3 1 = none ∧
    ZBS.classify (ZBS.new ⟨1, 5/4, 10⟩ ⟨0, 100, 1/2, 1/3, SpikeState.Normal⟩ ⟨0, 0, 1/32⟩) 3 (-1) 1 = none :=
  ⟨precondition_enforcement.1 2 1 (by norm_num),
   precondition_enforcement.2.1 (1/3) (1/2) (by norm_num),
   precondition_enforcement.2.2.1 2 (1/2) (Or.inr (Or.inl (by norm_num))),
   precondition_enforcement.2.2.2.1 2 (Or.inr (by norm_num)),
   precondition_enforcement.2.2.2.2.1 ⟨1, 5/4, 10⟩ 3,
   precondition_enforcement.2.2.2.2.2.1 ⟨0, 0, 1/32⟩ 3,
   precondition_enforcement.2.2.2.2.2.2.1
     (ZBS.new ⟨1, 5/4, 10⟩ ⟨0, 100, 1/2, 1/3, SpikeState.Normal⟩ ⟨0, 0, 1/32⟩) 3 3,
   precondition_enforcement.2.2.2.2.2.2.2.1 ⟨0, 1/30, 2/5, 0⟩ (-1) (by norm_num),
   precondition_enforcement.2.2.2.2.2.2.2.2.1 ⟨0, 0, 1/32⟩ (-1) 1 (by norm_num),
   precondition_enforcement.2.2.2.2.2.2.2.2.2.1
     (ZBS.new ⟨1, 5/4, 10⟩ ⟨0, 100, 1/2, 1/3, SpikeState.Normal⟩ ⟨0, 0, 1/32⟩) (-1) 3 1 (by norm_num),
   precondition_enforcement.2.2.2.2.2.2.2.2.2.2
     (ZBS.new ⟨1, 5/4, 10⟩ ⟨0, 100, 1/2, 1/3, SpikeState.Normal⟩ ⟨0, 0, 1/32⟩) 3 (-1) 1 (by norm_num)⟩

/-! ## Claim C10 (MBiaz has no sign restriction) -/

/-- Claim C10: `MBiaz::classify` imposes no sign restriction on
`interarrival_time`: for every `interarrival_time` (including negative
values) the call completes (returns a verdict) iff `num_lost_packets > 0`
— so the only failing case is `num_lost_packets = 0` — and a negative
`interarrival_time` simply becomes the new running minimum (the updated
minimum is `min` of the old one and the argument). -/
theorem mbiaz_classify_total (s : MBiaz) (interarrival_time : ℚ) (n : ℕ) :
    ((∃ r, s.classify interarrival_time n = some r) ↔ 0 < n) ∧
    (∀ v s', s.classify interarrival_time n = some (v, s') →
      s'.interarrival_time_min = min s.interarrival_time_min interarrival_time) := by
  unfold MBiaz.classify
  by_cases hn : 0 < n
  · rw [if_pos hn]
    refine ⟨⟨fun _ => hn, fun _ => ⟨_, rfl⟩⟩, ?_⟩
    intro v s' h
    replace h := Option.some.inj h
    rw [Prod.ext_iff] at h
    obtain ⟨hv, hs⟩ := h
    subst hs
    simp [update_min_eq]
  · rw [if_neg hn]
    refine ⟨⟨?_, fun h => absurd h hn⟩, ?_⟩
    · rintro ⟨r, hr2⟩
      exact Option.noConfusion hr2
    · intro v s' h
      exact Option.noConfusion h

/-- Witness for C10 at a negative interarrival time. -/
theorem mbiaz_classify_total_witness :
    (0 : ℕ) < 1 ∧
    MBiaz.interarrival_time_min ⟨1, 5/4, -3⟩ = min 10 (-3) :=
  ⟨(mbiaz_classify_total ⟨1, 5/4, 10⟩ (-3) 1).1.mp
      ⟨(PacketLoss.Congestion, ⟨1, 5/4, -3⟩), by norm_num [MBiaz.classify]⟩,
   (mbiaz_classify_total ⟨1, 5/4, 10⟩ (-3) 1).2 PacketLoss.Congestion ⟨1, 5/4, -3⟩
      (by norm_num [MBiaz.classify])⟩

end PLC
